import Mathlib

/-!
Shallow embedding of `src/sattrack/interface/script.js`, a browser-side
satellite-tracking client, together with proofs of its specified properties.

Modelling conventions:
- JavaScript numbers are idealised as rationals extended with a NaN value
  (`JSNum`); overflow and binary rounding of doubles are not observable in
  any property treated here.
- JSON fields that the script passes through `parseFloat` are modelled as
  `Option ℚ`: `some q` is a value parseable as the number `q`, `none` is an
  unparseable value, which `parseFloat` turns into NaN.
- The global mutable variables of the script (`$lon`, `$lat`, `$az`, `$alt`,
  `$time`, `$trajectory`, `$stop_flag`, the five label texts, the log
  container and the satellite-marker circle attributes) are gathered into one
  record `ViewState`; each event handler of the script becomes a function
  `ViewState → ... → ViewState` performing exactly the updates the handler
  performs, in the handler's order.
- The log container (`$log`) displays prepended paragraphs; it is modelled as
  a list whose head is the topmost (most recently prepended) entry.
- `setTimeout(f, d)` is modelled by recording `d` (in milliseconds) in the
  field `nextPollDelayMs`: the property level of the claims is which delay is
  requested, not real time.
-/

namespace SatTrack

/-- JavaScript number idealised as a rational or NaN. -/
inductive JSNum where
  | nan : JSNum
  | num : ℚ → JSNum
deriving DecidableEq, Repr

namespace JSNum

/-- Unary minus on JavaScript numbers: `-NaN` is NaN. -/
def neg : JSNum → JSNum
  | nan => nan
  | num q => num (-q)

end JSNum

/-- JavaScript `parseFloat` applied to a JSON field value: an unparseable
value (modelled as `none`) yields NaN, a parseable one yields its number. -/
def parseFloat : Option ℚ → JSNum
  | none => JSNum.nan
  | some q => JSNum.num q

/-- Rounding to the nearest integer, ties away from zero, as
`Number.prototype.toFixed` rounds. -/
def roundAway (q : ℚ) : ℤ :=
  if 0 ≤ q then ⌊q + 1/2⌋ else -⌊-q + 1/2⌋

/-- Left-pads the decimal rendering of `r < 1000` to three digits. -/
def pad3 (r : ℕ) : String :=
  (if r < 10 then "00" else if r < 100 then "0" else "") ++ toString r

/-- Rendering of a rational with exactly three decimal places. -/
def ratToFixed3 (q : ℚ) : String :=
  let n := roundAway (q * 1000)
  let sign := if n < 0 then "-" else ""
  sign ++ toString (n.natAbs / 1000) ++ "." ++ pad3 (n.natAbs % 1000)

/-- JavaScript `x.toFixed(3)`: `"NaN"` when `x` is NaN, otherwise the
three-decimal rendering. -/
def toFixed3 : JSNum → String
  | JSNum.nan => "NaN"
  | JSNum.num q => ratToFixed3 q

/-- The shared mutable view state of the script: the globals set up in
`setVariables`, the label texts, the log display (head = topmost entry), the
projection rotation pair set by `$projection.rotate`, the satellite-marker
circle position attributes (absent until `drawSat` runs), and the delay
passed to the last `setTimeout` call. -/
structure ViewState where
  lon : JSNum
  lat : JSNum
  az : JSNum
  alt : JSNum
  time : String
  trajectory : List (JSNum × JSNum)
  stop_flag : Bool
  lonlabel : String
  latlabel : String
  azilabel : String
  altlabel : String
  timelabel : String
  logDisplay : List String
  markerCx : Option ℚ
  markerCy : Option ℚ
  projRotation : JSNum × JSNum
  nextPollDelayMs : ℚ
deriving DecidableEq, Repr

/-- A `?status` JSON response as consumed by the success handler of
`getStatus`: the four position fields may be unparseable (`none`), the log
field is a sequence of lines, `interval` is the server-specified number of
seconds until the next poll. -/
structure StatusResponse where
  lon : Option ℚ
  lat : Option ℚ
  az : Option ℚ
  alt : Option ℚ
  time : String
  log : List String
  interval : ℚ
deriving DecidableEq, Repr

/-- The initial state established by `setVariables`: position zero, empty
time, empty trajectory, `$stop_flag = false`; the labels are the page's
own (not yet written), the log display empty, the marker not yet drawn,
the projection unrotated, no timer requested yet. -/
def initState : ViewState where
  lon := JSNum.num 0
  lat := JSNum.num 0
  az := JSNum.num 0
  alt := JSNum.num 0
  time := ""
  trajectory := []
  stop_flag := false
  lonlabel := ""
  latlabel := ""
  azilabel := ""
  altlabel := ""
  timelabel := ""
  logDisplay := []
  markerCx := none
  markerCy := none
  projRotation := (JSNum.num 0, JSNum.num 0)
  nextPollDelayMs := 0

/-- `addTrajectory(lat, lon)`: pushes `[lon, lat]` onto `$trajectory`.
Note the push swaps the argument order: the stored pair is
(longitude, latitude). -/
def addTrajectory (lat lon : JSNum) (trajectory : List (JSNum × JSNum)) :
    List (JSNum × JSNum) :=
  trajectory ++ [(lon, lat)]

/-- `appendLog(log)`: prepends each entry of `log` to the log container in
sequence order, one `$log.prepend` call per entry, so the last entry of
`log` ends up topmost. Head of the result = topmost displayed entry. -/
def appendLog (log : List String) (display : List String) : List String :=
  log.foldl (fun d entry => entry :: d) display

/-- `rotateProjection(lat, lon)`: the new rotation passed to
`$projection.rotate`, namely `[-lon, -lat]`. -/
def rotateProjection (lat lon : JSNum) : JSNum × JSNum :=
  (lon.neg, lat.neg)

/-- The CSS selectors whose `d` attribute `rotateProjection` recomputes. -/
def rotateProjectionSelectors : List String :=
  [".boundary", ".land", ".graticule", ".fill", ".stroke", "#sphere"]

/-- The CSS selectors whose `d` attribute `plotPoints` recomputes. -/
def plotPointsSelectors : List String :=
  [".trajectory"]

/-- The CSS class of the satellite-marker circle appended by `drawSat`. -/
def satelliteSelector : String := ".satellite"

/-- `drawSat()`: binds the single datum `[$lon, $lat]` and sets the circle's
`cx`/`cy` attributes from the projection applied to that pair. The
projection is an external d3 object, passed here as a function from a
(longitude, latitude) pair to pixel coordinates. -/
def drawSat (proj : JSNum × JSNum → ℚ × ℚ) (st : ViewState) : ViewState :=
  { st with
    markerCx := some (proj (st.lon, st.lat)).1
    markerCy := some (proj (st.lon, st.lat)).2 }

/-- The success callback of `getStatus` applied to a parsed JSON response:
parses the four numeric fields, stores the time, appends to the trajectory,
prepends the log lines, writes the five labels, rotates the projection, and
requests the next poll after `1000 * data.interval` milliseconds.
(`plotPoints` redraws the `.trajectory` path from `$trajectory`; it mutates
no state field.) -/
def pollSuccess (st : ViewState) (data : StatusResponse) : ViewState :=
  let lon := parseFloat data.lon
  let lat := parseFloat data.lat
  let az := parseFloat data.az
  let alt := parseFloat data.alt
  { st with
    lon := lon
    lat := lat
    az := az
    alt := alt
    time := data.time
    trajectory := addTrajectory lat lon st.trajectory
    logDisplay := appendLog data.log st.logDisplay
    lonlabel := toFixed3 lon
    latlabel := toFixed3 lat
    azilabel := toFixed3 az
    altlabel := toFixed3 alt
    timelabel := data.time ++ " UTC"
    projRotation := rotateProjection lat lon
    nextPollDelayMs := 1000 * data.interval }

/-- The message logged by the failure branch of `getStatus`. -/
def failMessage : String := "Server connection failed. Retrying in 2s."

/-- The `.fail` callback of `getStatus`: requests the next poll after a
fixed 2000 ms, empties `$trajectory`, and, when `$stop_flag` is false,
prepends the single retry message. -/
def pollFail (st : ViewState) : ViewState :=
  { st with
    nextPollDelayMs := 2000
    trajectory := []
    logDisplay :=
      if st.stop_flag then st.logDisplay
      else appendLog [failMessage] st.logDisplay }

/-- Outcome of one `$.getJSON` poll: `success` when the HTTP request
succeeded and the body parsed as JSON (whatever the field contents),
`failure` on a network error or JSON syntax error. -/
inductive PollOutcome where
  | success (data : StatusResponse) : PollOutcome
  | failure : PollOutcome
deriving DecidableEq, Repr

/-- One poll cycle of `getStatus`: the success callback runs exactly on
`success` outcomes, the `.fail` callback on `failure` outcomes. -/
def pollStep (st : ViewState) : PollOutcome → ViewState
  | PollOutcome.success data => pollSuccess st data
  | PollOutcome.failure => pollFail st

/-- Click handler of `#startcomputing`: fires the request; on a successful
response sets `$stop_flag := false`. Nothing happens on failure. -/
def startComputingClick (requestSucceeds : Bool) (st : ViewState) : ViewState :=
  if requestSucceeds then { st with stop_flag := false } else st

/-- Click handler of `#stopcomputing`: empties `$trajectory` immediately at
click time, then fires the request; on a successful response sets
`$stop_flag := true`. -/
def stopComputingClick (requestSucceeds : Bool) (st : ViewState) : ViewState :=
  let st := { st with trajectory := ([] : List (JSNum × JSNum)) }
  if requestSucceeds then { st with stop_flag := true } else st

/-- `setVariables` canvas sizing: `$width` is `0.45 * innerWidth` when
`outerHeight < innerWidth` and `0.9 * innerWidth` otherwise; `$height` is
set to `$width`, and the appended svg gets these as its `width` and
`height` attributes. -/
structure SvgCanvas where
  width : ℚ
  height : ℚ
deriving DecidableEq, Repr

/-- The svg canvas created by `setVariables` for the given viewport
dimensions. -/
def setVariablesCanvas (innerWidth outerHeight : ℚ) : SvgCanvas :=
  let w := if outerHeight < innerWidth then 45/100 * innerWidth
           else 9/10 * innerWidth
  { width := w, height := w }

/-- The drawing-area side length as the spec sentence words it: the lesser
of 90% of the viewport width and 45% of the viewport height. Stated for
comparison with `setVariablesCanvas`, which is what the code computes. -/
def mapDimensionSpec (innerWidth outerHeight : ℚ) : ℚ :=
  min (9/10 * innerWidth) (45/100 * outerHeight)

/-- Claim C1: for every successful poll response, the trajectory grows by
exactly one appended point, stored in (longitude, latitude) order matching
the response fields, and every prior trajectory element is left in place
unmodified (the whole prior list is a prefix of the new one). -/
theorem C1_trajectory_append (st : ViewState) (data : StatusResponse) :
    (pollSuccess st data).trajectory
      = st.trajectory ++ [(parseFloat data.lon, parseFloat data.lat)] := rfl

/-- Claim C2: every successful poll sets the projection rotation to
`[-lon, -lat]`; in particular a response with `lat = 10` and `lon = 20`
yields rotation `[-20, -10]`. -/
theorem C2_rotation_centered (st : ViewState) (data : StatusResponse) :
    (pollSuccess st data).projRotation
      = ((parseFloat data.lon).neg, (parseFloat data.lat).neg)
    ∧ (data.lat = some 10 → data.lon = some 20 →
        (pollSuccess st data).projRotation
          = (JSNum.num (-20), JSNum.num (-10))) := by
  refine ⟨rfl, fun hlat hlon => ?_⟩
  show ((parseFloat data.lon).neg, (parseFloat data.lat).neg) = _
  rw [hlat, hlon]
  rfl

/-- Witness for C2 at a concrete response with lat 10 and lon 20. -/
theorem C2_rotation_centered_witness :
    (pollSuccess initState
        ⟨some 20, some 10, some 0, some 0, "", [], 1⟩).projRotation
      = (JSNum.num (-20), JSNum.num (-10)) :=
  (C2_rotation_centered initState
    ⟨some 20, some 10, some 0, some 0, "", [], 1⟩).2 rfl rfl

/-- Claim C3: on every poll failure, whatever the prior trajectory and prior
delay, the next poll is requested after a fixed 2000 ms, the trajectory
becomes empty, and exactly one retry log line is prepended if and only if
the stopped flag is false. -/
theorem C3_failure_branch (st : ViewState) :
    (pollFail st).nextPollDelayMs = 2000
    ∧ (pollFail st).trajectory = []
    ∧ (pollFail st).logDisplay
        = (if st.stop_flag = false then failMessage :: st.logDisplay
           else st.logDisplay) := by
  refine ⟨rfl, rfl, ?_⟩
  by_cases h : st.stop_flag <;> simp [pollFail, appendLog, h]

/-- Claim C4: a successful poll with a numeric `interval` field requests the
next poll after exactly `1000 * interval` ms (so `interval = 5` gives a
5000 ms delay), and a failure immediately after it requests the next attempt
after the fixed 2000 ms, independent of the received interval. -/
theorem C4_interval_scheduling (st : ViewState) (data : StatusResponse) :
    (pollSuccess st data).nextPollDelayMs = 1000 * data.interval
    ∧ (data.interval = 5 → (pollSuccess st data).nextPollDelayMs = 5000)
    ∧ (pollFail (pollSuccess st data)).nextPollDelayMs = 2000 := by
  refine ⟨rfl, fun h => ?_, rfl⟩
  show 1000 * data.interval = 5000
  rw [h]; norm_num

/-- Witness for C4 at a concrete response with interval 5. -/
theorem C4_interval_scheduling_witness :
    (pollSuccess initState
        ⟨some 0, some 0, some 0, some 0, "", [], 5⟩).nextPollDelayMs = 5000 :=
  (C4_interval_scheduling initState
    ⟨some 0, some 0, some 0, some 0, "", [], 5⟩).2.1 rfl

/-- Claim C5: a successful stop-computing response sets the stopped flag and
leaves the trajectory empty, for every prior state of the poll loop; a
successful start-computing response clears the stopped flag, for every
prior state. -/
theorem C5_command_flags (st st2 : ViewState) :
    (stopComputingClick true st).stop_flag = true
    ∧ (stopComputingClick true st).trajectory = []
    ∧ (startComputingClick true st2).stop_flag = false :=
  ⟨rfl, rfl, rfl⟩

/-- Claim C6: a successful poll whose log field is `["a", "b"]` leaves the
log display equal to `"b"` topmost, then `"a"`, then all prior entries: the
entries are prepended one at a time in sequence order, so `"a"` ends up
below `"b"` and both sit above everything older. -/
theorem C6_log_prepend_order (st : ViewState) (data : StatusResponse)
    (h : data.log = ["a", "b"]) :
    (pollSuccess st data).logDisplay = "b" :: "a" :: st.logDisplay := by
  show appendLog data.log st.logDisplay = _
  rw [h]
  rfl

/-- Witness for C6 at a concrete response with log ["a", "b"]. -/
theorem C6_log_prepend_order_witness :
    (pollSuccess initState
        ⟨some 0, some 0, some 0, some 0, "", ["a", "b"], 1⟩).logDisplay
      = "b" :: "a" :: initState.logDisplay :=
  C6_log_prepend_order initState
    ⟨some 0, some 0, some 0, some 0, "", ["a", "b"], 1⟩ rfl

/-- Claim C7: the satellite-marker circle is positioned exactly once, at
startup, from the initial zero coordinates (for any projection function),
and neither a successful poll cycle nor a failed one changes its position
attributes; moreover the selector lists redrawn by `rotateProjection` and
by `plotPoints` do not include the satellite class, so no redraw touches
the marker. -/
theorem C7_marker_never_repositioned (proj : JSNum × JSNum → ℚ × ℚ)
    (st : ViewState) (data : StatusResponse) :
    (drawSat proj initState).markerCx
        = some (proj (JSNum.num 0, JSNum.num 0)).1
    ∧ (drawSat proj initState).markerCy
        = some (proj (JSNum.num 0, JSNum.num 0)).2
    ∧ (pollSuccess st data).markerCx = st.markerCx
    ∧ (pollSuccess st data).markerCy = st.markerCy
    ∧ (pollFail st).markerCx = st.markerCx
    ∧ (pollFail st).markerCy = st.markerCy
    ∧ satelliteSelector ∉ rotateProjectionSelectors
    ∧ satelliteSelector ∉ plotPointsSelectors :=
  ⟨rfl, rfl, rfl, rfl, rfl, rfl, by decide, by decide⟩

/-- Claim C8: processing the same status response a second time is
idempotent on all five displayed labels but not on the trajectory, which
still grows by the same one point (cumulative, not deduplicated). -/
theorem C8_repeat_poll (st : ViewState) (data : StatusResponse) :
    (pollSuccess (pollSuccess st data) data).lonlabel
        = (pollSuccess st data).lonlabel
    ∧ (pollSuccess (pollSuccess st data) data).latlabel
        = (pollSuccess st data).latlabel
    ∧ (pollSuccess (pollSuccess st data) data).azilabel
        = (pollSuccess st data).azilabel
    ∧ (pollSuccess (pollSuccess st data) data).altlabel
        = (pollSuccess st data).altlabel
    ∧ (pollSuccess (pollSuccess st data) data).timelabel
        = (pollSuccess st data).timelabel
    ∧ (pollSuccess (pollSuccess st data) data).trajectory
        = (pollSuccess st data).trajectory
            ++ [(parseFloat data.lon, parseFloat data.lat)]
    ∧ (pollSuccess (pollSuccess st data) data).trajectory.length
        = (pollSuccess st data).trajectory.length + 1 := by
  refine ⟨rfl, rfl, rfl, rfl, rfl, rfl, ?_⟩
  show ((pollSuccess st data).trajectory
      ++ [(parseFloat data.lon, parseFloat data.lat)]).length = _
  simp

/-- Counterexample to claim C9 as stated: at viewport inner width 100 and
outer height 100 the code computes side 90 (the 90% branch, since the
height is not strictly below the width), while "the lesser of 90% of the
viewport width and 45% of the height" would be 45. -/
theorem C9_side_length_counterexample :
    (setVariablesCanvas 100 100).width = 90
    ∧ mapDimensionSpec 100 100 = 45
    ∧ (setVariablesCanvas 100 100).width ≠ mapDimensionSpec 100 100 := by
  refine ⟨?_, ?_, ?_⟩ <;> norm_num [setVariablesCanvas, mapDimensionSpec]

/-- Claim C9 (amended): Projection Setup computes a square drawing area
(width equals height) for every pair of viewport dimensions; its side is
45% of the viewport inner width when the outer height is less than the
inner width, and 90% of the viewport inner width otherwise. -/
theorem C9_square_canvas (innerWidth outerHeight : ℚ) :
    (setVariablesCanvas innerWidth outerHeight).width
      = (setVariablesCanvas innerWidth outerHeight).height
    ∧ (outerHeight < innerWidth →
        (setVariablesCanvas innerWidth outerHeight).width
          = 45/100 * innerWidth)
    ∧ (¬ outerHeight < innerWidth →
        (setVariablesCanvas innerWidth outerHeight).width
          = 9/10 * innerWidth) := by
  refine ⟨rfl, fun h => ?_, fun h => ?_⟩ <;> simp [setVariablesCanvas, h]

/-- Witness for C9 at concrete viewport dimensions 100 by 50. -/
theorem C9_square_canvas_witness :
    (setVariablesCanvas 100 50).width = 45/100 * 100 :=
  (C9_square_canvas 100 50).2.1 (by norm_num)

/-- Claim C10: a response whose body parsed as JSON is always handled by the
success callback (the failure branch exists only for network or JSON-syntax
errors), and any unparseable numeric field becomes NaN: the appended
trajectory point carries NaN in the corresponding slot and the matching
label displays "NaN". -/
theorem C10_unparseable_fields (st : ViewState) (data : StatusResponse) :
    pollStep st (PollOutcome.success data) = pollSuccess st data
    ∧ (data.lon = none →
        (pollSuccess st data).lonlabel = "NaN"
        ∧ (pollSuccess st data).trajectory
            = st.trajectory ++ [(JSNum.nan, parseFloat data.lat)])
    ∧ (data.lat = none →
        (pollSuccess st data).latlabel = "NaN"
        ∧ (pollSuccess st data).trajectory
            = st.trajectory ++ [(parseFloat data.lon, JSNum.nan)])
    ∧ (data.az = none → (pollSuccess st data).azilabel = "NaN")
    ∧ (data.alt = none → (pollSuccess st data).altlabel = "NaN") := by
  refine ⟨rfl, fun h => ⟨?_, ?_⟩, fun h => ⟨?_, ?_⟩, fun h => ?_, fun h => ?_⟩
    <;> simp [pollSuccess, addTrajectory, parseFloat, toFixed3, h]

/-- Witness for C10 at a concrete response with every field unparseable. -/
theorem C10_unparseable_fields_witness :
    (pollSuccess initState ⟨none, none, none, none, "t", [], 1⟩).lonlabel
        = "NaN"
    ∧ (pollSuccess initState ⟨none, none, none, none, "t", [], 1⟩).trajectory
        = initState.trajectory ++ [(JSNum.nan, parseFloat none)] :=
  (C10_unparseable_fields initState ⟨none, none, none, none, "t", [], 1⟩).2.1 rfl

end SatTrack
